import Mathlib

/-!
Shallow embedding of the stripe-checkout-api repository (a small Express
checkout backend) and proofs about its specification claims.

Modelling conventions:
- File paths are lists of path segments, resolved the way Node's path.join
  normalizes them (dropping empty and dot segments, popping on dot-dot).
  Paths are taken relative to the application root, so the dirname of
  src/utils/helpers.js is the segment list [src, utils].
- The per-product JSON files always hold a Product record (the data model of
  the spec); the textual JSON codec of the platform is abstracted away: a
  successful JSON.stringify of a record followed by JSON.parse on read is the
  identity on records.  JSON.stringify applied to a JavaScript function value
  returns undefined, which is what the JsVal type captures; fs.writeFile
  rejects undefined data, which updateProduct models as a write failure.
- The Stripe SDK is an external collaborator: webhook signature verification
  (stripe.webhooks.constructEvent) is a parameter of type Except String
  StripeEvent, and checkout session creation is assumed to succeed with a
  given StripeSession; the parameters the code would send to the provider are
  recorded so that claims about the provider never being called are statable.
- JavaScript numbers appearing in request bodies are modelled as rationals
  (an Option for a possibly absent field); truthiness of a number is being
  nonzero, Number.isInteger q is the denominator being 1, and a comparison
  with undefined is false.
-/

namespace StripeCheckout

/-- Product record as persisted in one file per product (fields id, name,
amount, currency, stock of src/products JSON files). -/
structure Product where
  id : String
  name : String
  amount : ℤ
  currency : String
  stock : ℤ
deriving DecidableEq, Repr

/-- A JavaScript value passed as the data argument of updateProduct: either a
plain product record or a function value (handleWebhook passes an updater
callback).  JSON.stringify serializes the former and returns undefined on the
latter. -/
inductive JsVal where
  | record (p : Product)
  | function
deriving DecidableEq, Repr

/-- JSON.stringify restricted to the values the repository passes to
updateProduct: a record serializes to itself (text layer abstracted), a
function value is not serializable and yields undefined (none). -/
def jsonStringify : JsVal → Option Product
  | .record p => some p
  | .function => none

/-- The persistent file store: resolved path segments to file content. -/
def Store : Type := List String → Option Product

/-- One step of Node path normalization: empty and dot segments are dropped,
dot-dot pops the last segment (absorbed at the root), anything else is
appended. -/
def resolveStep (acc : List String) (seg : String) : List String :=
  if seg = "" then acc
  else if seg = "." then acc
  else if seg = ".." then acc.dropLast
  else acc ++ [seg]

/-- Node path.join normalization over a list of raw segments, starting from
an already-resolved accumulator. -/
def resolveFrom (acc : List String) : List String → List String
  | [] => acc
  | seg :: rest => resolveFrom (resolveStep acc seg) rest

/-- Splitting a raw path component on the separator character, accumulating
the current segment in reverse (auxiliary to splitSegs). -/
def splitSegsAux : List Char → List Char → List String
  | [], cur => [String.mk cur.reverse]
  | '/' :: rest, cur => String.mk cur.reverse :: splitSegsAux rest []
  | c :: rest, cur => splitSegsAux rest (c :: cur)

/-- Splitting a string on the path separator (the behavior of splitting a
joined component the way path.join treats embedded separators). -/
def splitSegs (s : String) : List String :=
  splitSegsAux s.data []

/-- The dirname of src/utils/helpers.js relative to the application root. -/
def dirSegs : List String := ["src", "utils"]

/-- The path computed by checkProductExists:
path.join(dirname, dot-dot, products, productId + .json).  The product id is
interpolated unsanitized, so it may itself contain separators and dot-dot
segments. -/
def productPath (productId : String) : List String :=
  resolveFrom [] (dirSegs ++ [".."] ++ ["products"] ++ splitSegs (productId ++ ".json"))

/-- The products directory the store is meant to live under. -/
def productsDirSegs : List String :=
  resolveFrom [] (dirSegs ++ [".."] ++ ["products"])

/-- Same path computation as productPath but from an arbitrary resolved
dirname, to reason about the layout independently of where the app is
installed. -/
def productPathAt (dir : List String) (productId : String) : List String :=
  resolveFrom dir ([".."] ++ ["products"] ++ splitSegs (productId ++ ".json"))

/-- The products directory as resolved from an arbitrary dirname. -/
def productsDirAt (dir : List String) : List String :=
  resolveFrom dir ([".."] ++ ["products"])

/-- Boolean prefix test on segment lists (is the first a leading prefix of
the second), used to state that a resolved path lies under a directory. -/
def listStartsWith : List String → List String → Bool
  | [], _ => true
  | _ :: _, [] => false
  | a :: as, b :: bs => a == b && listStartsWith as bs

/-- checkProductExists from src/utils/helpers.js: fs.access on the computed
product path, reported as an existence flag. -/
def checkProductExists (store : Store) (productId : String) : Bool :=
  (store (productPath productId)).isSome

/-- getProduct from src/utils/helpers.js: existence check, then read and
parse the product file. -/
def getProduct (store : Store) (productId : String) : Except String Product :=
  match store (productPath productId) with
  | none => .error ("Product " ++ productId ++ " not found")
  | some product => .ok product

/-- Result record of updateProduct (success flag plus error message). -/
structure UpdateResult where
  success : Bool
  error : Option String
deriving DecidableEq, Repr

/-- updateProduct from src/utils/helpers.js: existence check, then
fs.writeFile of JSON.stringify(updatedProduct).  When the data argument is a
function value, JSON.stringify returns undefined and fs.writeFile rejects, so
the catch branch reports failure and the store is unchanged.  Returns the
store after the call together with the result object. -/
def updateProduct (store : Store) (productId : String) (updatedProduct : JsVal) :
    Store × UpdateResult :=
  if checkProductExists store productId then
    match jsonStringify updatedProduct with
    | some p =>
      (fun q => if q = productPath productId then some p else store q,
       ⟨true, none⟩)
    | none =>
      (store, ⟨false, some "The data argument must be of type string or an instance of Buffer"⟩)
  else
    (store, ⟨false, some ("Product " ++ productId ++ " not found")⟩)

/-- parseInt(s, 10) of the webhook handler, modelled on the strings the
provider sends: optional sign then a run of leading decimal digits; none
stands for NaN. -/
def parseIntBase10 (s : String) : Option ℤ :=
  let core : List Char → Option ℤ := fun cs =>
    let digits := cs.takeWhile Char.isDigit
    if digits = [] then none
    else some (digits.foldl (fun acc c => acc * 10 + (c.toNat - 48 : ℤ)) 0)
  match s.toList with
  | '-' :: rest => (core rest).map (fun n => -n)
  | '+' :: rest => core rest
  | cs => core cs

/-- The updater callback that handleWebhook passes to updateProduct
(an async arrow function decrementing stock by the captured quantity).  As a
JavaScript function value it is not JSON-serializable, whatever quantity it
captured. -/
def stockUpdaterCallback (_quantityPurchased : Option ℤ) : JsVal :=
  .function

/-- Response bodies produced by the controllers and middlewares. -/
inductive Body where
  | err (error : String)
  | checkoutSuccess (checkout_url : String) (session_id : String)
      (product_id : String) (quantity : ℚ) (total_amount : ℚ)
      (unit_price : ℤ) (currency : String)
  | productData (product : Product) (available : Bool) (outOfStock : Bool)
      (inStock : Bool)
  | received
  | text (s : String)
deriving DecidableEq, Repr

/-- Comparison req.body.quantity > stock as JavaScript evaluates it: with
quantity undefined the comparison is false. -/
def jsGtOpt (quantity : Option ℚ) (stock : ℤ) : Bool :=
  match quantity with
  | none => false
  | some q => decide ((stock : ℚ) < q)

/-- validateCheckoutData from src/middlewares/validation.js.  The request
body carries an optional product_id and an optional numeric quantity; the
destructuring default quantity = 1 applies only when the field is absent and
only to the local variable, not to req.body.  Returns the 400 response when
validation rejects, none when it calls next(). -/
def validateCheckoutData (product_id : Option String) (quantity : Option ℚ) :
    Option (ℕ × String) :=
  let q := quantity.getD 1
  if product_id = none ∨ product_id = some "" then
    some (400, "Product ID is required")
  else if q = 0 then
    some (400, "Quantity is required")
  else if q.den ≠ 1 ∨ q < 1 then
    some (400, "Quantity must be a positive integer")
  else
    none

/-- loadProductInfo from src/middlewares/validation.js: existence check on
the product file, read and parse, then the stock checks.  The insufficiency
check compares the raw req.body.quantity (not the defaulted local of
validateCheckoutData) against the stock.  Returns the error response or the
product attached to req.product. -/
def loadProductInfo (store : Store) (product_id : String)
    (reqQuantity : Option ℚ) : Except (ℕ × String) Product :=
  match store (productPath product_id) with
  | none => .error (404, "Product not found")
  | some product =>
    if product.stock = 0 ∨ product.stock < 1 then
      .error (400, "Product out of stock")
    else if jsGtOpt reqQuantity product.stock then
      .error (400, "Insufficient stock")
    else
      .ok product

/-- The external session reference Stripe returns on a successful
checkout.sessions.create call. -/
structure StripeSession where
  id : String
  url : String
deriving DecidableEq, Repr

/-- The parameters the controller sends to stripe.checkout.sessions.create:
the single line item and the tracking metadata. -/
structure SessionParams where
  currency : String
  product_name : String
  unit_amount : ℤ
  line_quantity : ℚ
  meta_product_id : String
  meta_product_name : String
  meta_quantity : ℚ
  order_type : String
deriving DecidableEq, Repr

/-- createCheckoutSession from the checkout controller.  It destructures
quantity from req.body (no default): when the field was absent the metadata
construction evaluates quantity.toString() on undefined, which throws a
TypeError before the provider is called, and the catch branch answers 500.
Otherwise the provider call is made (assumed to succeed with sess) and the
200 response reports the purchase summary.  The first component records the
provider call, if any. -/
def createCheckoutSession (product : Product) (quantity : Option ℚ)
    (sess : StripeSession) : Option SessionParams × ℕ × Body :=
  match quantity with
  | none => (none, 500, .err "Error creating checkout session")
  | some q =>
    (some ⟨product.currency, product.name, product.amount, q,
           product.id, product.name, q, "single_purchase"⟩,
     200,
     .checkoutSuccess sess.url sess.id product.id q
       ((product.amount : ℚ) * q) product.amount product.currency)

/-- Observable outcome of one POST create-checkout-session request: HTTP
status, response body, the product-file paths the handlers touched, the
provider calls made, the product the middleware attached to the request (if
it passed), and the store after the request. -/
structure PipeOut where
  status : ℕ
  body : Body
  reads : List (List String)
  stripeCalls : List SessionParams
  passedProduct : Option Product
  store : Store

/-- The POST create-checkout-session route from src/routes/checkoutRoutes.js:
validateCheckoutData, then loadProductInfo, then the controller.  A rejecting
middleware responds without calling next(), so later stages never run. -/
def checkoutPipeline (store : Store) (product_id : Option String)
    (quantity : Option ℚ) (sess : StripeSession) : PipeOut :=
  match validateCheckoutData product_id quantity with
  | some (st, msg) => ⟨st, .err msg, [], [], none, store⟩
  | none =>
    let pid := product_id.getD ""
    match loadProductInfo store pid quantity with
    | .error (st, msg) => ⟨st, .err msg, [productPath pid], [], none, store⟩
    | .ok product =>
      match createCheckoutSession product quantity sess with
      | (callOpt, st, body) =>
        ⟨st, body, [productPath pid], callOpt.toList, some product, store⟩

/-- getProductInfo from the checkout controller (GET products id): 404 when
the file is missing, otherwise the record enriched with the availability
flags, in the order the code spreads them (available, outOfStock, inStock). -/
def getProductInfo (store : Store) (id : String) : ℕ × Body :=
  match store (productPath id) with
  | none => (404, .err "Product not found")
  | some product =>
    (200, .productData product (decide (0 < product.stock))
      (decide (product.stock ≤ 0)) (decide (0 < product.stock)))

/-- A Stripe webhook event after signature verification: its type and the
session object with the metadata the controller reads. -/
structure StripeEvent where
  type : String
  sessionId : String
  meta_product_id : String
  meta_quantity : String
deriving DecidableEq, Repr

/-- Observable outcome of one POST webhook request. -/
structure WebhookOut where
  store : Store
  status : ℕ
  body : Body
  logs : List String
  reads : List (List String)

/-- handleWebhook from the checkout controller.  Signature verification by
stripe.webhooks.constructEvent against the shared secret is the external
parameter verified: an error answers 400 with no event processing.  On a
verified checkout.session.completed event the handler parses the metadata
quantity and calls updateProduct with the updater callback; a failed update
is only logged.  The two payment_intent types are logged only, every other
type hits the default log.  Every verified event is acknowledged by
res.json(received true), status 200. -/
def handleWebhook (verified : Except String StripeEvent) (store : Store) :
    WebhookOut :=
  match verified with
  | .error msg =>
    ⟨store, 400, .text ("Webhook Error: " ++ msg),
     ["Webhook signature verification failed: " ++ msg], []⟩
  | .ok event =>
    if event.type = "checkout.session.completed" then
      let productId := event.meta_product_id
      let quantityPurchased := parseIntBase10 event.meta_quantity
      let result := updateProduct store productId (stockUpdaterCallback quantityPurchased)
      ⟨result.1, 200, .received,
       ["Checkout completed: " ++ event.sessionId] ++
         (if result.2.success then
            ["Product " ++ productId ++ " stock updated successfully."]
          else
            ["Error updating product stock: " ++ (result.2.error.getD "")]),
       [productPath productId]⟩
    else if event.type = "payment_intent.succeeded" then
      ⟨store, 200, .received, ["Payment successful: " ++ event.sessionId], []⟩
    else if event.type = "payment_intent.payment_failed" then
      ⟨store, 200, .received, ["Payment failed: " ++ event.sessionId], []⟩
    else
      ⟨store, 200, .received, ["Unhandled event type " ++ event.type], []⟩

/-! Concrete fixtures: the product of the specification scenario (p1 with
unit amount 1000, currency usd, stock 3), a store holding exactly that
product file, a provider session, and the completion event of the scenario. -/

/-- The product of the concrete specification scenario. -/
def p1 : Product := ⟨"p1", "Product One", 1000, "usd", 3⟩

/-- A store whose products directory holds exactly p1.json. -/
def store1 : Store :=
  fun path => if path = productPath "p1" then some p1 else none

/-- A successful provider session reference. -/
def sess0 : StripeSession := ⟨"cs_1", "https://example.test/checkout"⟩

/-- The checkout.session.completed event of the specification scenario, with
metadata product_id p1 and quantity 2. -/
def completedEvent : StripeEvent :=
  ⟨"checkout.session.completed", "cs_1", "p1", "2"⟩

/-- An empty store (no product files at all). -/
def emptyStore : Store := fun _ => none

/-- A record that lives outside the products directory, at src/secret.json
(one level above src/products). -/
def secretFile : Product := ⟨"secret", "Not in products dir", 1, "usd", 1⟩

/-- A filesystem whose only file is src/secret.json, outside the products
directory. -/
def outsideStore : Store :=
  fun path => if path = ["src", "secret.json"] then some secretFile else none

/-- Helper: updateProduct called with the webhook updater callback never
succeeds and never changes the store, since JSON.stringify of a function
value is undefined and the write rejects. -/
theorem updateProduct_callback_fails (store : Store) (pid : String) (q : Option ℤ) :
    (updateProduct store pid (stockUpdaterCallback q)).1 = store ∧
    (updateProduct store pid (stockUpdaterCallback q)).2.success = false := by
  unfold updateProduct
  split
  · exact ⟨rfl, rfl⟩
  · exact ⟨rfl, rfl⟩

/-- Helper: the prefix test is invariant under extending both lists by the
same leading segments. -/
theorem listStartsWith_append_left (l xs ys : List String) :
    listStartsWith (l ++ xs) (l ++ ys) = listStartsWith xs ys := by
  induction l with
  | nil => rfl
  | cons a as ih => simp [listStartsWith, ih]

/-- Helper: the products directory as resolved from any dirname. -/
theorem productsDirAt_eq (dir : List String) :
    productsDirAt dir = dir.dropLast ++ ["products"] := by
  simp [productsDirAt, resolveFrom, resolveStep]

/-- Helper: a product id beginning with a dot-dot segment resolves to a path
beside, not below, the products directory. -/
theorem productPathAt_dotdot_secret (dir : List String) :
    productPathAt dir "../secret" = dir.dropLast ++ ["secret.json"] := by
  have hsplit : splitSegs ("../secret" ++ ".json") = ["..", "secret.json"] := by decide
  simp [productPathAt, hsplit, resolveFrom, resolveStep, List.dropLast_concat]

/-- C1: the claim says a verified checkout.session.completed event with
metadata product p1 and quantity 2 leaves p1 persisted with stock 1.  The
code instead passes the updater callback function itself as the data argument
of updateProduct, whose JSON.stringify is undefined, so the write fails and
the persisted record still has stock 3, while the update result reports
failure and the handler still acknowledges with 200. -/
theorem c1_webhook_stock_not_decremented :
    (handleWebhook (.ok completedEvent) store1).store (productPath "p1") = some p1 ∧
    ((handleWebhook (.ok completedEvent) store1).store (productPath "p1")).map Product.stock = some 3 ∧
    (handleWebhook (.ok completedEvent) store1).status = 200 ∧
    (updateProduct store1 "p1" (stockUpdaterCallback (parseIntBase10 "2"))).2.success = false :=
  ⟨by decide, by decide, by decide, by decide⟩

/-- C2: the claim says omitting quantity defaults it to 1 and the request
succeeds with product.quantity 1.  The destructuring default in
validateCheckoutData is local only; createCheckoutSession reads the absent
req.body.quantity and quantity.toString() throws, so the response is a 500
error and the provider is never called. -/
theorem c2_missing_quantity_yields_500 :
    (checkoutPipeline store1 (some "p1") none sess0).status = 500 ∧
    (checkoutPipeline store1 (some "p1") none sess0).body = .err "Error creating checkout session" ∧
    (checkoutPipeline store1 (some "p1") none sess0).stripeCalls = [] :=
  ⟨by decide, by decide, by decide⟩

/-- C5: a webhook request whose signature does not verify is answered with
status 400, no product file is read, and every path of the store is unchanged
after the response. -/
theorem c5_invalid_signature_rejected_without_processing (msg : String) (store : Store) :
    (handleWebhook (.error msg) store).status = 400 ∧
    (handleWebhook (.error msg) store).reads = [] ∧
    ∀ path, (handleWebhook (.error msg) store).store path = store path :=
  ⟨rfl, rfl, fun _ => rfl⟩

/-- C7: handling POST create-checkout-session never modifies the product
store: on every request, accepted or rejected, every path holds exactly what
it held before the request. -/
theorem c7_checkout_pipeline_never_writes_store (store : Store)
    (product_id : Option String) (quantity : Option ℚ) (sess : StripeSession)
    (path : List String) :
    (checkoutPipeline store product_id quantity sess).store path = store path := by
  unfold checkoutPipeline
  split
  · rfl
  · dsimp only
    split
    · rfl
    · rfl

/-- C3: a request whose quantity is zero, negative, or not an integer is
rejected with status 400 and an error body by validateCheckoutData, before
any product file is touched and before any provider call. -/
theorem c3_invalid_quantity_rejected_without_effects (product_id : Option String)
    (q : ℚ) (sess : StripeSession) (store : Store)
    (h : q = 0 ∨ q < 0 ∨ q.den ≠ 1) :
    (checkoutPipeline store product_id (some q) sess).status = 400 ∧
    (checkoutPipeline store product_id (some q) sess).reads = [] ∧
    (checkoutPipeline store product_id (some q) sess).stripeCalls = [] ∧
    ∃ msg, (checkoutPipeline store product_id (some q) sess).body = .err msg := by
  have hv : ∃ m, validateCheckoutData product_id (some q) = some (400, m) := by
    by_cases hp : product_id = none ∨ product_id = some ""
    · exact ⟨"Product ID is required", by simp [validateCheckoutData, hp]⟩
    · by_cases h0 : q = 0
      · exact ⟨"Quantity is required", by simp [validateCheckoutData, hp, h0]⟩
      · have hcond : q.den ≠ 1 ∨ q < 1 := by
          rcases h with h | h | h
          · exact absurd h h0
          · exact Or.inr (by linarith)
          · exact Or.inl h
        exact ⟨"Quantity must be a positive integer",
          by simp [validateCheckoutData, hp, h0, hcond]⟩
  obtain ⟨m, hm⟩ := hv
  refine ⟨?_, ?_, ?_, m, ?_⟩ <;> simp [checkoutPipeline, hm]

/-- C3 witness: quantity zero on the concrete store is rejected with 400,
with no store read and no provider call. -/
theorem c3_witness :
    ((0 : ℚ) = 0 ∨ (0 : ℚ) < 0 ∨ (0 : ℚ).den ≠ 1) ∧
    ((checkoutPipeline store1 (some "p1") (some 0) sess0).status = 400 ∧
     (checkoutPipeline store1 (some "p1") (some 0) sess0).reads = [] ∧
     (checkoutPipeline store1 (some "p1") (some 0) sess0).stripeCalls = [] ∧
     ∃ msg, (checkoutPipeline store1 (some "p1") (some 0) sess0).body = .err msg) :=
  ⟨Or.inl rfl,
   c3_invalid_quantity_rejected_without_effects (some "p1") 0 sess0 store1 (Or.inl rfl)⟩

/-- C6: every verified webhook event is acknowledged with status 200 and the
received body, whatever its type; on a completed event a failed stock update
is only logged; any type other than the three known ones leaves the store
unchanged and produces only the default log. -/
theorem c6_verified_webhook_always_acknowledged (event : StripeEvent) (store : Store) :
    (handleWebhook (.ok event) store).status = 200 ∧
    (handleWebhook (.ok event) store).body = .received ∧
    (event.type = "checkout.session.completed" →
      ∃ e, ("Error updating product stock: " ++ e) ∈ (handleWebhook (.ok event) store).logs) ∧
    ((event.type ≠ "checkout.session.completed" ∧
      event.type ≠ "payment_intent.succeeded" ∧
      event.type ≠ "payment_intent.payment_failed") →
      (∀ path, (handleWebhook (.ok event) store).store path = store path) ∧
      (handleWebhook (.ok event) store).logs = ["Unhandled event type " ++ event.type]) := by
  by_cases h1 : event.type = "checkout.session.completed"
  · have hfail := updateProduct_callback_fails store event.meta_product_id
      (parseIntBase10 event.meta_quantity)
    refine ⟨?_, ?_, fun _ => ?_, fun hcon => absurd h1 hcon.1⟩
    · simp [handleWebhook, h1]
    · simp [handleWebhook, h1]
    · refine ⟨(updateProduct store event.meta_product_id
        (stockUpdaterCallback (parseIntBase10 event.meta_quantity))).2.error.getD "", ?_⟩
      simp [handleWebhook, h1, hfail.2]
  · by_cases h2 : event.type = "payment_intent.succeeded"
    · refine ⟨?_, ?_, fun hc => absurd hc h1, fun hcon => absurd h2 hcon.2.1⟩ <;>
        simp [handleWebhook, h1, h2]
    · by_cases h3 : event.type = "payment_intent.payment_failed"
      · refine ⟨?_, ?_, fun hc => absurd hc h1, fun hcon => absurd h3 hcon.2.2⟩ <;>
          simp [handleWebhook, h1, h2, h3]
      · refine ⟨?_, ?_, fun hc => absurd hc h1, fun _ => ⟨fun _ => ?_, ?_⟩⟩ <;>
          simp [handleWebhook, h1, h2, h3]

/-- C6 witness: a verified event of an unknown type on the concrete store is
acknowledged with 200 and received, the store is untouched and only the
default log line is produced. -/
theorem c6_witness :
    (handleWebhook (.ok ⟨"invoice.paid", "cs_9", "", ""⟩) store1).status = 200 ∧
    (handleWebhook (.ok ⟨"invoice.paid", "cs_9", "", ""⟩) store1).body = .received ∧
    ((⟨"invoice.paid", "cs_9", "", ""⟩ : StripeEvent).type = "checkout.session.completed" →
      ∃ e, ("Error updating product stock: " ++ e) ∈
        (handleWebhook (.ok ⟨"invoice.paid", "cs_9", "", ""⟩) store1).logs) ∧
    (((⟨"invoice.paid", "cs_9", "", ""⟩ : StripeEvent).type ≠ "checkout.session.completed" ∧
      (⟨"invoice.paid", "cs_9", "", ""⟩ : StripeEvent).type ≠ "payment_intent.succeeded" ∧
      (⟨"invoice.paid", "cs_9", "", ""⟩ : StripeEvent).type ≠ "payment_intent.payment_failed") →
      (∀ path, (handleWebhook (.ok ⟨"invoice.paid", "cs_9", "", ""⟩) store1).store path =
        store1 path) ∧
      (handleWebhook (.ok ⟨"invoice.paid", "cs_9", "", ""⟩) store1).logs =
        ["Unhandled event type " ++ ("invoice.paid" : String)]) :=
  c6_verified_webhook_always_acknowledged ⟨"invoice.paid", "cs_9", "", ""⟩ store1

/-- C8: when no backing record exists for the identifier, GET products id
answers 404, and POST create-checkout-session with otherwise valid input
(validation passing) also answers 404. -/
theorem c8_missing_product_yields_404 (store : Store) (id : String)
    (quantity : Option ℚ) (sess : StripeSession)
    (hmiss : store (productPath id) = none)
    (hvalid : validateCheckoutData (some id) quantity = none) :
    (getProductInfo store id).1 = 404 ∧
    (checkoutPipeline store (some id) quantity sess).status = 404 := by
  constructor
  · simp [getProductInfo, hmiss]
  · simp [checkoutPipeline, hvalid, loadProductInfo, hmiss]

/-- C8 witness: the empty store answers 404 on both endpoints for product id
p2 with quantity 1. -/
theorem c8_witness :
    emptyStore (productPath "p2") = none ∧
    validateCheckoutData (some "p2") (some 1) = none ∧
    ((getProductInfo emptyStore "p2").1 = 404 ∧
     (checkoutPipeline emptyStore (some "p2") (some 1) sess0).status = 404) :=
  ⟨rfl, by decide,
   c8_missing_product_yields_404 emptyStore "p2" (some 1) sess0 rfl (by decide)⟩

/-- C9: for an identifier with an existing backing record, writing any
product record with updateProduct succeeds and reading it back with
getProduct returns exactly the record written. -/
theorem c9_update_then_get_roundtrip (store : Store) (pid : String)
    (p0 newP : Product) (hexists : store (productPath pid) = some p0) :
    (updateProduct store pid (.record newP)).2.success = true ∧
    getProduct (updateProduct store pid (.record newP)).1 pid = .ok newP := by
  have hce : checkProductExists store pid = true := by
    simp [checkProductExists, hexists]
  constructor
  · simp [updateProduct, hce, jsonStringify]
  · simp [updateProduct, hce, jsonStringify, getProduct]

/-- C9 witness: overwriting p1 with a record whose stock is 7 succeeds and
reads back field for field. -/
theorem c9_witness :
    store1 (productPath "p1") = some p1 ∧
    ((updateProduct store1 "p1" (.record ⟨"p1", "Product One", 1000, "usd", 7⟩)).2.success = true ∧
     getProduct (updateProduct store1 "p1" (.record ⟨"p1", "Product One", 1000, "usd", 7⟩)).1 "p1" =
       .ok ⟨"p1", "Product One", 1000, "usd", 7⟩) :=
  ⟨by decide,
   c9_update_then_get_roundtrip store1 "p1" p1 ⟨"p1", "Product One", 1000, "usd", 7⟩ (by decide)⟩

/-- C10: the product file path interpolates the caller-supplied identifier
with no sanitization, so an identifier carrying a dot-dot segment resolves,
from any install dirname, to a path outside the products directory; on the
concrete layout, the identifier dot-dot-slash-secret reaches src/secret.json,
which the public product endpoint checks and serves. -/
theorem c10_path_traversal_escapes_products_dir :
    (∀ dir : List String,
      listStartsWith (productsDirAt dir) (productPathAt dir "../secret") = false) ∧
    productPath "../secret" = ["src", "secret.json"] ∧
    productsDirSegs = ["src", "products"] ∧
    listStartsWith productsDirSegs (productPath "../secret") = false ∧
    checkProductExists outsideStore "../secret" = true ∧
    (getProductInfo outsideStore "../secret").1 = 200 := by
  refine ⟨?_, by decide, by decide, by decide, by decide, by decide⟩
  intro dir
  rw [productsDirAt_eq, productPathAt_dotdot_secret, listStartsWith_append_left]
  decide

/-- C4: for a purchase request with a positive integer quantity and an
existing record, the availability check of loadProductInfo rejects out of
stock exactly when stock is at most 0, rejects insufficient stock exactly
when (stock being positive, the first check having priority) the requested
quantity exceeds the stock, otherwise attaches the loaded product to the
request; whenever no product is passed on, no provider call is made. -/
theorem c4_availability_check_characterization (store : Store) (pid : String)
    (q : ℚ) (product : Product) (sess : StripeSession)
    (hpid : pid ≠ "") (hstore : store (productPath pid) = some product)
    (hint : q.den = 1) (hq : 1 ≤ q) :
    ((checkoutPipeline store (some pid) (some q) sess).status = 400 ∧
     (checkoutPipeline store (some pid) (some q) sess).body = .err "Product out of stock"
      ↔ product.stock ≤ 0) ∧
    ((checkoutPipeline store (some pid) (some q) sess).status = 400 ∧
     (checkoutPipeline store (some pid) (some q) sess).body = .err "Insufficient stock"
      ↔ 0 < product.stock ∧ (product.stock : ℚ) < q) ∧
    ((checkoutPipeline store (some pid) (some q) sess).passedProduct = some product
      ↔ 0 < product.stock ∧ q ≤ (product.stock : ℚ)) ∧
    ((checkoutPipeline store (some pid) (some q) sess).passedProduct = none →
      (checkoutPipeline store (some pid) (some q) sess).stripeCalls = []) := by
  have hv : validateCheckoutData (some pid) (some q) = none := by
    have h0 : ¬(q = 0) := fun hz => by rw [hz] at hq; norm_num at hq
    have h2 : ¬(q.den ≠ 1 ∨ q < 1) := by
      push_neg
      exact ⟨hint, hq⟩
    simp [validateCheckoutData, hpid, h0, h2]
  by_cases hs : product.stock = 0 ∨ product.stock < 1
  · have hload : loadProductInfo store pid (some q) = .error (400, "Product out of stock") := by
      simp [loadProductInfo, hstore, hs]
    have hstk : product.stock ≤ 0 := by rcases hs with h | h <;> omega
    have hout : checkoutPipeline store (some pid) (some q) sess =
        ⟨400, .err "Product out of stock", [productPath pid], [], none, store⟩ := by
      simp [checkoutPipeline, hv, hload]
    rw [hout]
    refine ⟨iff_of_true ⟨rfl, rfl⟩ hstk, iff_of_false ?_ ?_, iff_of_false ?_ ?_, fun _ => rfl⟩
    · rintro ⟨-, hbody⟩
      simp at hbody
    · rintro ⟨hpos, -⟩
      omega
    · exact fun h => Option.some_ne_none product h.symm
    · rintro ⟨hpos, -⟩
      omega
  · have hstk : 0 < product.stock := by
      push_neg at hs
      omega
    by_cases hlt : (product.stock : ℚ) < q
    · have hload : loadProductInfo store pid (some q) = .error (400, "Insufficient stock") := by
        simp [loadProductInfo, hstore, hs, jsGtOpt, hlt]
      have hout : checkoutPipeline store (some pid) (some q) sess =
          ⟨400, .err "Insufficient stock", [productPath pid], [], none, store⟩ := by
        simp [checkoutPipeline, hv, hload]
      rw [hout]
      refine ⟨iff_of_false ?_ ?_, iff_of_true ⟨rfl, rfl⟩ ⟨hstk, hlt⟩,
        iff_of_false ?_ ?_, fun _ => rfl⟩
      · rintro ⟨-, hbody⟩
        simp at hbody
      · intro hle
        omega
      · exact fun h => Option.some_ne_none product h.symm
      · rintro ⟨-, hle⟩
        linarith
    · have hload : loadProductInfo store pid (some q) = .ok product := by
        simp [loadProductInfo, hstore, hs, jsGtOpt, hlt]
      have hstatus : (checkoutPipeline store (some pid) (some q) sess).status = 200 := by
        simp [checkoutPipeline, hv, hload, createCheckoutSession]
      have hpass : (checkoutPipeline store (some pid) (some q) sess).passedProduct =
          some product := by
        simp [checkoutPipeline, hv, hload, createCheckoutSession]
      refine ⟨iff_of_false ?_ ?_, iff_of_false ?_ ?_,
        iff_of_true hpass ⟨hstk, not_lt.mp hlt⟩, fun h => ?_⟩
      · rintro ⟨hstat, -⟩
        rw [hstatus] at hstat
        norm_num at hstat
      · intro hle
        omega
      · rintro ⟨hstat, -⟩
        rw [hstatus] at hstat
        norm_num at hstat
      · rintro ⟨-, hlt2⟩
        exact hlt hlt2
      · exact absurd (hpass.symm.trans h) (Option.some_ne_none product)

/-- C4 witness: on the concrete store (p1 has stock 3), quantity 6 is an
insufficient-stock 400 rejection, not out-of-stock, no product is passed on
and no provider call is made. -/
theorem c4_witness :
    ("p1" ≠ "") ∧ (store1 (productPath "p1") = some p1) ∧
    ((6 : ℚ).den = 1) ∧ ((1 : ℚ) ≤ 6) ∧
    (((checkoutPipeline store1 (some "p1") (some 6) sess0).status = 400 ∧
      (checkoutPipeline store1 (some "p1") (some 6) sess0).body = .err "Product out of stock"
       ↔ p1.stock ≤ 0) ∧
     ((checkoutPipeline store1 (some "p1") (some 6) sess0).status = 400 ∧
      (checkoutPipeline store1 (some "p1") (some 6) sess0).body = .err "Insufficient stock"
       ↔ 0 < p1.stock ∧ (p1.stock : ℚ) < 6) ∧
     ((checkoutPipeline store1 (some "p1") (some 6) sess0).passedProduct = some p1
       ↔ 0 < p1.stock ∧ (6 : ℚ) ≤ (p1.stock : ℚ)) ∧
     ((checkoutPipeline store1 (some "p1") (some 6) sess0).passedProduct = none →
       (checkoutPipeline store1 (some "p1") (some 6) sess0).stripeCalls = [])) :=
  ⟨by decide, by decide, by decide, by norm_num,
   c4_availability_check_characterization store1 "p1" 6 p1 sess0
     (by decide) (by decide) (by decide) (by norm_num)⟩

end StripeCheckout
